import Mathlib

/-!
# Verification of lolopy learners (src/python/lolopy/learners.py)

A shallow embedding of the estimator facade in `learners.py`:
`BaseLoloLearner` (fit, `_convert_train_data`, `_convert_run_data`),
`BaseRandomForest.predict`, `RandomForestRegressor`,
`RandomForestClassifier` (fit, predict, predict_proba).

Numeric values are modelled as rationals (the claims under study do not
depend on floating-point rounding).  Python scalars are modelled by `PyNum`
(an int or a float), matching the `float(y_i)` / `int(y_i)` conversions in
`_convert_train_data`.  The py4j gateway / JVM engine is modelled as an
`Engine` oracle, and every crossing of the bridge performed by the Python
code is recorded in a trace of `BCall` events, so that claims of the form
"no engine call is attempted" can be settled.
-/

namespace Lolopy

/-- A Python numeric scalar: an `int` or a `float` (floats as exact
rationals; the claims do not hinge on rounding). -/
inductive PyNum where
  | int (n : Int)
  | float (q : ℚ)
  deriving DecidableEq

/-- Python `float(v)` on a numeric scalar. -/
def PyNum.toFloat : PyNum → ℚ
  | .int n => (n : ℚ)
  | .float q => q

/-- Python `int(v)` on a numeric scalar: truncation toward zero. -/
def PyNum.toInt : PyNum → Int
  | .int n => n
  | .float q => if 0 ≤ q then ⌊q⌋ else ⌈q⌉

/-- The numeric value of a scalar, as Python `==`/`hash` see it
(`1 == 1.0` holds in Python, so `set(y)` identifies them). -/
def PyNum.val : PyNum → ℚ
  | .int n => (n : ℚ)
  | .float q => q

/-- `len(set(y))` for a list of Python numeric scalars: the number of
distinct numeric values. -/
def pySetSize (y : List PyNum) : Nat :=
  (y.map PyNum.val).dedup.length

/-- One record of the training data sent to the engine.
`_convert_train_data` builds `scala.Tuple3(x, y, 1.0)` when no weights were
given and `scala.Tuple2(x, y)` otherwise. -/
inductive TrainRecord where
  | tuple3 (x : List ℚ) (y : PyNum) (w : ℚ)
  | tuple2 (x : List ℚ) (y : PyNum)
  deriving DecidableEq

/-- The target component of a training record. -/
def TrainRecord.target : TrainRecord → PyNum
  | .tuple3 _ y _ => y
  | .tuple2 _ y => y

/-- Python exception kinds that can surface from this layer.
`notFittedError` is sklearn's `NotFittedError`; the code under study never
raises it, but the constructor is needed to state spec claims about it. -/
inductive PyError where
  | notFittedError
  | attributeError        -- e.g. `NoneType` object has no attribute `transform`
  | noSuchElement         -- scala `None.get` (empty Option) via py4j
  | typeError
  | indexError
  | py4jError             -- opaque failure inside the JVM engine
  deriving DecidableEq

/-- A crossing of the py4j bridge into the JVM, as performed by the code. -/
inductive BCall where
  | newJavaList           -- gateway.jvm.java.util.ArrayList(...)
  | convertRow            -- ListConverter().convert + asScalaBuffer().toVector per row
  | toScalaBuffer         -- final asScalaBuffer on the assembled list
  | makeLearner           -- constructing the RandomForest learner in the JVM
  | train                 -- learner.train(...)
  | getModel              -- result.getModel()
  | transform             -- model_.transform(X_java)
  | extract               -- reading expected values / uncertainty out of the result
  deriving DecidableEq

/-- Opaque handle to a trained model living in the engine. -/
abbrev ModelHandle := Nat

/-- The payload of `PredictionResult.getUncertainty().get()`: for
regression models a sequence of per-row doubles, for classification models
a sequence of per-row maps from class label to probability. -/
inductive UPayload where
  | seq (f : Nat → ℚ)
  | maps (ms : List (List (Int × ℚ)))

/-- The engine-side `PredictionResult`: `getExpected().apply(i)` and the
optional `getUncertainty()`. -/
structure PredResult where
  expected : Nat → ℚ
  uncertainty : Option UPayload

/-- The hyperparameters stored by `BaseRandomForest.__init__` and used by
`_make_learner`. -/
structure LearnerConfig where
  num_trees : Int := -1
  useJackknife : Bool := true
  subsetStrategy : Int := 4
  deriving DecidableEq

/-- The JVM engine, as an oracle: `train` models
`learner.train(train_data)` (second argument `none`) or
`learner.train(train_data, scala.Some(weights_java))` (second argument
`some w`), composed with `result.getModel()`; `transform` models
`model_.transform(X_java)`. -/
structure Engine where
  train : LearnerConfig → List TrainRecord → Option (List ℚ) →
    Except PyError ModelHandle
  transform : ModelHandle → List (List ℚ) → PredResult

/-- The Python-side estimator object (`BaseRandomForest` and its two
subclasses).  `isRegressor` models sklearn's `is_regressor(self)` (true
exactly for `RandomForestRegressor`); `model_` is the stored model handle
(`None` until a successful fit); `n_classes_` models the attribute that
only `RandomForestClassifier.fit` creates (`none` = attribute absent). -/
structure Facade where
  isRegressor : Bool
  config : LearnerConfig
  model_ : Option ModelHandle
  n_classes_ : Option Nat

/-- A freshly constructed facade (`__init__` sets `model_ = None`;
`n_classes_` does not exist yet). -/
def Facade.fresh (isReg : Bool) (cfg : LearnerConfig) : Facade :=
  { isRegressor := isReg, config := cfg, model_ := none, n_classes_ := none }

/-- `BaseLoloLearner._convert_train_data(X, y, weights)`: zips `X` with
`y` (Python's `zip` silently truncates to the shorter), converts the
target with `float`/`int` according to `is_regressor(self)`, and builds a
`Tuple3(x, y, 1.0)` per record when weights are `None` and a
`Tuple2(x, y)` otherwise.  Returns the assembled records, the converted
weights (`none` when weights were `None`), and the bridge calls made. -/
def convert_train_data (isReg : Bool) (X : List (List ℚ)) (y : List PyNum)
    (weights : Option (List ℚ)) :
    List TrainRecord × Option (List ℚ) × List BCall :=
  let records := (X.zip y).map fun p =>
    let yc : PyNum := if isReg then .float p.2.toFloat else .int p.2.toInt
    match weights with
    | none => TrainRecord.tuple3 p.1 yc 1
    | some _ => TrainRecord.tuple2 p.1 yc
  let calls := BCall.newJavaList ::
    ((X.zip y).map fun _ => BCall.convertRow) ++ [BCall.toScalaBuffer] ++
    (match weights with
     | none => []
     | some _ => [BCall.toScalaBuffer])
  (records, weights, calls)

/-- `BaseLoloLearner._convert_run_data(X)`: marshals each row across the
bridge; the numeric content is the identity, only bridge calls happen. -/
def convert_run_data (X : List (List ℚ)) : List (List ℚ) × List BCall :=
  (X, BCall.newJavaList :: (X.map fun _ => BCall.convertRow) ++
    [BCall.toScalaBuffer])

/-- The outcome of a `fit` call: the facade afterwards, the bridge calls
made, and either success (`fit` returns `self`) or the exception raised. -/
structure FitOutcome where
  facade : Facade
  calls : List BCall
  result : Except PyError Unit

/-- `BaseLoloLearner.fit(X, y, weights)`: instantiate the JVM learner,
convert the training data, call `learner.train` (one-argument form when
weights are `None`, two-argument form with `scala.Some(weights_java)`
otherwise), and on success store `result.getModel()` into `model_`. -/
def fitBase (eng : Engine) (f : Facade) (X : List (List ℚ)) (y : List PyNum)
    (weights : Option (List ℚ)) : FitOutcome :=
  let conv := convert_train_data f.isRegressor X y weights
  let pre := BCall.makeLearner :: conv.2.2
  match eng.train f.config conv.1 conv.2.1 with
  | .error e => ⟨f, pre ++ [BCall.train], .error e⟩
  | .ok m =>
      ⟨{ f with model_ := some m }, pre ++ [BCall.train, BCall.getModel], .ok ()⟩

/-- `RandomForestClassifier.fit(X, y, weights)`: first sets
`self.n_classes_ = len(set(y))`, then delegates to the base `fit`. -/
def fitClassifier (eng : Engine) (f : Facade) (X : List (List ℚ))
    (y : List PyNum) (weights : Option (List ℚ)) : FitOutcome :=
  fitBase eng { f with n_classes_ := some (pySetSize y) } X y weights

/-- What `predict` returns: a vector of point estimates, or (with
`return_std=True`) that vector paired with per-row uncertainties. -/
inductive PredictOutput where
  | single (ys : List ℚ)
  | withStd (ys : List ℚ) (stds : List ℚ)
  deriving DecidableEq

/-- `BaseRandomForest.predict(X, return_std)`: convert the run data, call
`self.model_.transform` (an `AttributeError` when `model_` is `None`),
read the expected values, and when `return_std` also
`getUncertainty().get()` (scala `None.get` raises when the result carries
no uncertainty) filling a numpy array entry by entry (a non-numeric
payload cannot be stored into the float array). -/
def predict (eng : Engine) (f : Facade) (X : List (List ℚ))
    (return_std : Bool) : List BCall × Except PyError PredictOutput :=
  let conv := convert_run_data X
  match f.model_ with
  | none => (conv.2, .error .attributeError)
  | some m =>
      let pr := eng.transform m conv.1
      let calls := conv.2 ++ [BCall.transform, BCall.extract]
      let y_pred := (List.range X.length).map pr.expected
      if return_std then
        match pr.uncertainty with
        | none => (calls ++ [BCall.extract], .error .noSuchElement)
        | some (.seq u) =>
            (calls ++ [BCall.extract],
             .ok (.withStd y_pred ((List.range X.length).map u)))
        | some (.maps _) => (calls ++ [BCall.extract], .error .typeError)
      else
        (calls, .ok (.single y_pred))

/-- `RandomForestClassifier.predict(X)` forwards to the base predict with
`return_std=False`. -/
def predictClassifier (eng : Engine) (f : Facade) (X : List (List ℚ)) :
    List BCall × Except PyError PredictOutput :=
  predict eng f X false

/-- Densify one row: `[prob.getOrDefault(j, 0) for j in range(K)]`. -/
def densifyRow (K : Nat) (m : List (Int × ℚ)) : List ℚ :=
  (List.range K).map fun (j : Nat) => ((m.lookup ((j : Int))).getD 0)

/-- `RandomForestClassifier.predict_proba(X)`: convert the run data, call
`self.model_.transform`, allocate `np.zeros((len(X), self.n_classes_))`,
and for each row of `getUncertainty().get()` overwrite output row `i` with
`prob.getOrDefault(j, 0)` for `j in range(self.n_classes_)`.  Rows beyond
the returned probability rows keep their zeros; more probability rows than
`len(X)` would index the numpy array out of range. -/
def predict_proba (eng : Engine) (f : Facade) (X : List (List ℚ)) :
    List BCall × Except PyError (List (List ℚ)) :=
  let conv := convert_run_data X
  match f.model_ with
  | none => (conv.2, .error .attributeError)
  | some m =>
      let pr := eng.transform m conv.1
      let calls := conv.2 ++ [BCall.transform, BCall.extract]
      match f.n_classes_ with
      | none => (calls, .error .attributeError)
      | some K =>
          match pr.uncertainty with
          | none => (calls ++ [BCall.extract], .error .noSuchElement)
          | some (.seq _) => (calls ++ [BCall.extract], .error .typeError)
          | some (.maps ms) =>
              if X.length < ms.length then
                (calls ++ [BCall.extract], .error .indexError)
              else
                (calls ++ [BCall.extract],
                 .ok (ms.map (densifyRow K) ++
                   List.replicate (X.length - ms.length) (List.replicate K 0)))

/-- A concrete engine for closed witnesses: training always succeeds with
handle 0 and transform reports expected value 0 and no uncertainty. -/
def okEngine : Engine where
  train := fun _ _ _ => .ok (0 : Nat)
  transform := fun _ _ => ⟨fun _ => 0, none⟩

/-- A concrete engine whose `train` always fails with an opaque JVM
error, for exercising failed fits. -/
def failEngine : Engine where
  train := fun _ _ _ => .error .py4jError
  transform := fun _ _ => ⟨fun _ => 0, none⟩

/-- The argument tuple of the engine-training invocation that a `fit`
call issues: the assembled records together with the optional second
argument (`none` models the one-argument `learner.train(train_data)`
call, `some w` the two-argument `learner.train(train_data, Some(w))`). -/
def trainInvocation (f : Facade) (X : List (List ℚ)) (y : List PyNum)
    (w : Option (List ℚ)) : List TrainRecord × Option (List ℚ) :=
  ((convert_train_data f.isRegressor X y w).1,
   (convert_train_data f.isRegressor X y w).2.1)

/-- Whether a record is a 3-tuple carrying the explicit weight `1.0`. -/
def TrainRecord.isWeightedOne : TrainRecord → Bool
  | .tuple3 _ _ w => w == 1
  | .tuple2 _ _ => false

/-- Whether a record is a 2-tuple (the shape used on the weighted path). -/
def TrainRecord.isPair : TrainRecord → Bool
  | .tuple3 _ _ _ => false
  | .tuple2 _ _ => true

/-- A concrete engine whose prediction result carries per-row probability
maps on the class labels `0` and `1`. -/
def mapsEngine : Engine where
  train := fun _ _ _ => .ok 0
  transform := fun _ _ => ⟨fun _ => 0, some (.maps [[(0, 1), (1, 1)]])⟩

/-- A concrete engine whose prediction result carries a sequence of
per-row uncertainties (the regression shape). -/
def seqEngine : Engine where
  train := fun _ _ _ => .ok 0
  transform := fun _ _ => ⟨fun i => (i : ℚ), some (.seq fun _ => 1)⟩

/-- A concrete engine whose probability maps live on the labels `5` and
`7` — a model trained on labels that are not `0..K-1`. -/
def labelEngine : Engine where
  train := fun _ _ _ => .ok 0
  transform := fun _ _ => ⟨fun _ => 0, some (.maps [[(5, 1), (7, 1)]])⟩

/-- A classifier facade that has been trained (model handle present,
class count 2). -/
def trainedClf : Facade :=
  { isRegressor := false, config := {}, model_ := some 0, n_classes_ := some 2 }

/-- A regressor facade that has been trained. -/
def trainedReg : Facade :=
  { isRegressor := true, config := {}, model_ := some 0, n_classes_ := none }

/-- The facade obtained by actually fitting a fresh classifier on the
labels `{5, 7}` against `labelEngine`. -/
def clf57 : Facade :=
  (fitClassifier labelEngine (Facade.fresh false {}) [[1], [2]]
    [PyNum.int 5, PyNum.int 7] none).facade

/-! ## Claims -/

/-- Claim C1, counterexample.  On a freshly constructed (never-fitted)
regressor with input `[[1]]`, `predict` does make bridge calls (the input
is marshalled across the gateway before `model_` is touched), and the
exception raised is not sklearn's `NotFittedError` (it is an
`AttributeError` from `None.transform`). -/
theorem C1_counterexample :
    (predict okEngine (Facade.fresh true {}) [[1]] false).1 ≠ [] ∧
    (predict okEngine (Facade.fresh true {}) [[1]] false).2 ≠
      Except.error PyError.notFittedError := by
  constructor
  · intro h
    simp [predict, convert_run_data, Facade.fresh] at h
  · intro h
    have h2 : (predict okEngine (Facade.fresh true {}) [[1]] false).2 =
        Except.error PyError.attributeError := rfl
    rw [h2] at h
    exact PyError.noConfusion (Except.error.inj h)

/-- Claim C1, amended.  Calling `predict` or `predict_proba` on a Facade on
which fit has never succeeded (`model_ = None`) first marshals the input
across the bridge (a nonempty list of bridge calls) and then raises an
`AttributeError` (`NoneType` has no attribute `transform`), not a
`NotFittedError`. -/
theorem C1_untrained_predict (eng : Engine) (f : Facade) (X : List (List ℚ))
    (b : Bool) (h : f.model_ = none) :
    (predict eng f X b).1 ≠ [] ∧
    (predict eng f X b).2 = Except.error PyError.attributeError ∧
    (predict_proba eng f X).1 ≠ [] ∧
    (predict_proba eng f X).2 = Except.error PyError.attributeError := by
  unfold predict predict_proba
  rw [h]
  refine ⟨?_, rfl, ?_, rfl⟩ <;> simp [convert_run_data]

/-- Witness for C1 (amended) at a concrete fresh classifier facade. -/
theorem C1_untrained_predict_witness :
    (predict okEngine (Facade.fresh false {}) [[2]] true).2
      = Except.error PyError.attributeError :=
  (C1_untrained_predict okEngine (Facade.fresh false {}) [[2]] true rfl).2.1

/-- Claim C2, counterexample.  `fit` with a 2-row `X` and a 1-row `y` does
not raise: it returns success, the engine training call is made, and the
training data is silently truncated to `min 2 1 = 1` record by `zip`. -/
theorem C2_counterexample :
    (fitBase okEngine (Facade.fresh true {}) [[1], [2]] [PyNum.int 0] none).result
      = Except.ok () ∧
    BCall.train ∈
      (fitBase okEngine (Facade.fresh true {}) [[1], [2]] [PyNum.int 0] none).calls ∧
    (convert_train_data true [[1], [2]] [PyNum.int 0] none).1.length = 1 := by
  refine ⟨rfl, ?_, rfl⟩
  decide

/-- Claim C2, amended.  `fit` never checks row counts: the records handed
to the engine are `zip X y` (length `min |X| |y|`, silently truncating the
longer argument), the engine training call is always made, and `fit`
succeeds exactly when the engine's training succeeds — no `ShapeMismatch`
is ever raised on this layer. -/
theorem C2_truncating_fit (eng : Engine) (f : Facade) (X : List (List ℚ))
    (y : List PyNum) (w : Option (List ℚ)) :
    (convert_train_data f.isRegressor X y w).1.length = min X.length y.length ∧
    BCall.train ∈ (fitBase eng f X y w).calls ∧
    ((fitBase eng f X y w).result = Except.ok () ↔
      ∃ m, eng.train f.config (convert_train_data f.isRegressor X y w).1
        (convert_train_data f.isRegressor X y w).2.1 = Except.ok m) := by
  refine ⟨?_, ?_, ?_⟩
  · simp [convert_train_data]
  · unfold fitBase
    cases htr : eng.train f.config (convert_train_data f.isRegressor X y w).1
        (convert_train_data f.isRegressor X y w).2.1 <;> simp [htr]
  · unfold fitBase
    cases htr : eng.train f.config (convert_train_data f.isRegressor X y w).1
        (convert_train_data f.isRegressor X y w).2.1 <;> simp [htr]

/-- Witness for C2 (amended) at the concrete mismatched input. -/
theorem C2_truncating_fit_witness :
    (convert_train_data (Facade.fresh true {}).isRegressor [[1], [2]]
      [PyNum.int 0] none).1.length = min 2 1 :=
  (C2_truncating_fit okEngine (Facade.fresh true {}) [[1], [2]] [PyNum.int 0] none).1

/-- Helper: on a failed training call, the base `fit` leaves the facade
untouched (`model_ := result.getModel()` is never reached). -/
lemma fitBase_error_facade (eng : Engine) (f : Facade) (X : List (List ℚ))
    (y : List PyNum) (w : Option (List ℚ)) (e : PyError)
    (h : (fitBase eng f X y w).result = Except.error e) :
    (fitBase eng f X y w).facade = f := by
  unfold fitBase at h ⊢
  cases htr : eng.train f.config (convert_train_data f.isRegressor X y w).1
      (convert_train_data f.isRegressor X y w).2.1 <;> simp [htr] at h ⊢

/-- Helper: the base `fit` never touches `n_classes_`. -/
lemma fitBase_n_classes (eng : Engine) (f : Facade) (X : List (List ℚ))
    (y : List PyNum) (w : Option (List ℚ)) :
    (fitBase eng f X y w).facade.n_classes_ = f.n_classes_ := by
  unfold fitBase
  cases htr : eng.train f.config (convert_train_data f.isRegressor X y w).1
      (convert_train_data f.isRegressor X y w).2.1 <;> simp [htr]

/-- Claim C3, counterexample.  A failed classifier fit is not atomic: on a
fresh classifier (no `n_classes_` attribute) with an engine whose training
fails, the fit call reports the failure but leaves `n_classes_` set to the
new label count — the observable state after the failed call differs from
the state before it. -/
theorem C3_counterexample :
    (fitClassifier failEngine (Facade.fresh false {}) [[1]] [PyNum.int 0] none).result
      = Except.error PyError.py4jError ∧
    (fitClassifier failEngine (Facade.fresh false {}) [[1]]
        [PyNum.int 0] none).facade.n_classes_
      ≠ (Facade.fresh false {}).n_classes_ := by
  refine ⟨rfl, ?_⟩
  decide

/-- Claim C3, amended.  A failed fit keeps the prior `model_` (hence the
Trained/Untrained status): the base fit leaves the facade unchanged on
error.  But a classifier's `n_classes_` is overwritten with the new label
count of `y` before training and is not restored when training fails. -/
theorem C3_fit_atomicity (eng : Engine) (f : Facade) (X : List (List ℚ))
    (y : List PyNum) (w : Option (List ℚ)) (e : PyError) :
    ((fitBase eng f X y w).result = Except.error e →
      (fitBase eng f X y w).facade = f) ∧
    ((fitClassifier eng f X y w).result = Except.error e →
      (fitClassifier eng f X y w).facade
        = { f with n_classes_ := some (pySetSize y) }) :=
  ⟨fitBase_error_facade eng f X y w e,
   fun h => fitBase_error_facade eng { f with n_classes_ := some (pySetSize y) }
     X y w e h⟩

/-- Witness for C3 (amended): the failed classifier fit keeps `model_`
(`none`) but holds the freshly computed class count. -/
theorem C3_fit_atomicity_witness :
    (fitClassifier failEngine (Facade.fresh false {}) [[1]] [PyNum.int 1] none).facade
      = { Facade.fresh false {} with n_classes_ := some (pySetSize [PyNum.int 1]) } :=
  (C3_fit_atomicity failEngine (Facade.fresh false {}) [[1]] [PyNum.int 1] none
    PyError.py4jError).2 rfl

/-- Claim C4, counterexample.  The engine invocation issued when weights are
omitted differs from the one issued with an explicit all-ones weight
vector: omitted weights produce 3-tuple records and a one-argument train
call, supplied weights produce 2-tuple records and a two-argument call —
a distinct "no weights" code path does exist. -/
theorem C4_counterexample :
    trainInvocation (Facade.fresh true {}) [[1]] [PyNum.int 0] none ≠
      trainInvocation (Facade.fresh true {}) [[1]] [PyNum.int 0] (some [1]) := by
  decide

/-- Claim C4, amended.  When the caller omits weights every assembled
record does carry an explicit weight `1.0` (inside a `Tuple3`), and the
engine is invoked through the one-argument train call (`none` second
argument); when weights are supplied the records are `Tuple2`s and the
engine receives the weight vector as the second argument — two distinct
code paths. -/
theorem C4_weight_paths (f : Facade) (X : List (List ℚ)) (y : List PyNum)
    (w : List ℚ) :
    ((convert_train_data f.isRegressor X y none).1.all
      TrainRecord.isWeightedOne) = true ∧
    (trainInvocation f X y none).2 = none ∧
    ((convert_train_data f.isRegressor X y (some w)).1.all
      TrainRecord.isPair) = true ∧
    (trainInvocation f X y (some w)).2 = some w := by
  refine ⟨?_, rfl, ?_, rfl⟩ <;>
  · simp [convert_train_data, List.all_eq_true, TrainRecord.isWeightedOne,
      TrainRecord.isPair]
    rintro r a b hmem rfl
    rfl

/-- Claim C5.  `RandomForestClassifier.fit` stores
`n_classes_ = len(set(y))` for every engine outcome — in particular also
when the engine training fails, which shows the assignment happens before
the training call is issued — and the stored count depends only on the set
of distinct numeric values of `y`, not on order or repetition. -/
theorem C5_class_count (eng : Engine) (f : Facade) (X : List (List ℚ))
    (y : List PyNum) (w : Option (List ℚ)) :
    (fitClassifier eng f X y w).facade.n_classes_ = some (pySetSize y) ∧
    ∀ z : List PyNum, (y.map PyNum.val).toFinset = (z.map PyNum.val).toFinset →
      pySetSize y = pySetSize z := by
  constructor
  · unfold fitClassifier
    rw [fitBase_n_classes]
  · intro z hz
    unfold pySetSize
    rw [← List.card_toFinset, ← List.card_toFinset, hz]

/-- Witness for C5 at labels `{0,1,2}` repeated and reordered: the stored
class count is 3 either way. -/
theorem C5_class_count_witness :
    (fitClassifier okEngine (Facade.fresh false {}) [[1], [2], [3], [4], [5]]
      [PyNum.int 0, PyNum.int 1, PyNum.int 2, PyNum.int 2, PyNum.int 0]
      none).facade.n_classes_
      = some (pySetSize
          [PyNum.int 0, PyNum.int 1, PyNum.int 2, PyNum.int 2, PyNum.int 0]) ∧
    pySetSize [PyNum.int 0, PyNum.int 1, PyNum.int 2, PyNum.int 2, PyNum.int 0]
      = pySetSize [PyNum.int 2, PyNum.int 1, PyNum.int 0] :=
  ⟨(C5_class_count okEngine (Facade.fresh false {}) [[1], [2], [3], [4], [5]]
      [PyNum.int 0, PyNum.int 1, PyNum.int 2, PyNum.int 2, PyNum.int 0] none).1,
   (C5_class_count okEngine (Facade.fresh false {}) [[1], [2], [3], [4], [5]]
      [PyNum.int 0, PyNum.int 1, PyNum.int 2, PyNum.int 2, PyNum.int 0] none).2
     [PyNum.int 2, PyNum.int 1, PyNum.int 0] (by decide)⟩

/-- Helper: on a trained classifier whose engine result carries exactly
one probability map per input row, `predict_proba` succeeds and returns
the densified rows. -/
lemma predict_proba_ok (eng : Engine) (f : Facade) (X : List (List ℚ))
    (m : ModelHandle) (K : Nat) (ms : List (List (Int × ℚ)))
    (hm : f.model_ = some m) (hK : f.n_classes_ = some K)
    (hu : (eng.transform m X).uncertainty = some (UPayload.maps ms))
    (hlen : ms.length = X.length) :
    (predict_proba eng f X).2 = Except.ok (ms.map (densifyRow K)) := by
  simp [predict_proba, convert_run_data, hm, hK, hu, hlen]

/-- Helper: reading an in-range entry of `(List.range n).map g`. -/
lemma getD_range_map (g : Nat → ℚ) (n i : Nat) (hi : i < n) :
    ((List.range n).map g).getD i 0 = g i := by
  have h1 : i < ((List.range n).map g).length := by simpa using hi
  rw [List.getD_eq_getElem _ _ h1, List.getElem_map]
  simp

/-- Claim C6.  On a trained classifier, `predict_proba` returns one row per
input row, each of width `n_classes_`; entry `(i, j)` is the probability
the engine's map for row `i` holds at class index `j`, and `0` when that
index is absent from the map (`prob.getOrDefault(j, 0)`). -/
theorem C6_predict_proba (eng : Engine) (f : Facade) (X : List (List ℚ))
    (m : ModelHandle) (K : Nat) (ms : List (List (Int × ℚ)))
    (hm : f.model_ = some m) (hK : f.n_classes_ = some K)
    (hu : (eng.transform m X).uncertainty = some (UPayload.maps ms))
    (hlen : ms.length = X.length) :
    (predict_proba eng f X).2 = Except.ok (ms.map (densifyRow K)) ∧
    (ms.map (densifyRow K)).length = X.length ∧
    (∀ i, i < X.length → ((ms.map (densifyRow K)).getD i []).length = K) ∧
    (∀ i j, i < X.length → j < K →
      ((ms.map (densifyRow K)).getD i []).getD j 0
        = ((ms.getD i []).lookup ((j : Int))).getD 0) := by
  refine ⟨predict_proba_ok eng f X m K ms hm hK hu hlen, by simp [hlen], ?_, ?_⟩
  · intro i hi
    have hi1 : i < ms.length := hlen ▸ hi
    have hi2 : i < (ms.map (densifyRow K)).length := by simpa using hi1
    rw [List.getD_eq_getElem _ _ hi2, List.getElem_map]
    simp only [densifyRow, List.length_map, List.length_range]
  · intro i j hi hj
    have hi1 : i < ms.length := hlen ▸ hi
    have hi2 : i < (ms.map (densifyRow K)).length := by simpa using hi1
    rw [List.getD_eq_getElem _ _ hi2, List.getElem_map, List.getD_eq_getElem _ _ hi1]
    unfold densifyRow
    exact getD_range_map _ K j hj

/-- Witness for C6 on a concrete trained classifier with a two-label
probability map. -/
theorem C6_predict_proba_witness :
    (predict_proba mapsEngine trainedClf [[1]]).2
      = Except.ok ([[((0 : Int), (1 : ℚ)), (1, 1)]].map (densifyRow 2)) :=
  (C6_predict_proba mapsEngine trainedClf [[1]] 0 2 [[(0, 1), (1, 1)]]
    rfl rfl rfl rfl).1

/-- Claim C7.  On a trained facade, requesting uncertainty when the engine
result carries none fails (`Option.get` on the empty scala option — a
distinguishable error kind, not a fabricated zero array); without the
request, the absence of uncertainty causes no failure and the point
estimates are returned. -/
theorem C7_uncertainty_unavailable (eng : Engine) (f : Facade)
    (X : List (List ℚ)) (m : ModelHandle) (hm : f.model_ = some m) :
    ((eng.transform m X).uncertainty = none →
      (predict eng f X true).2 = Except.error PyError.noSuchElement) ∧
    (predict eng f X false).2
      = Except.ok (PredictOutput.single
          ((List.range X.length).map (eng.transform m X).expected)) := by
  constructor
  · intro hu
    simp [predict, convert_run_data, hm, hu]
  · simp [predict, convert_run_data, hm]

/-- Witness for C7 on a trained regressor against an engine that reports
no uncertainty. -/
theorem C7_uncertainty_unavailable_witness :
    (predict okEngine trainedReg [[1]] true).2
      = Except.error PyError.noSuchElement ∧
    (predict okEngine trainedReg [[1]] false).2
      = Except.ok (PredictOutput.single
          ((List.range 1).map (okEngine.transform 0 [[1]]).expected)) :=
  ⟨(C7_uncertainty_unavailable okEngine trainedReg [[1]] 0 rfl).1 rfl,
   (C7_uncertainty_unavailable okEngine trainedReg [[1]] 0 rfl).2⟩

/-- Claim C8.  Each training record's target is `float(y_i)` on a
regression facade and `int(y_i)` on a classification facade, where `y_i`
is the target zipped with row `i`. -/
theorem C8_target_dispatch (isReg : Bool) (X : List (List ℚ)) (y : List PyNum)
    (w : Option (List ℚ)) (i : Nat)
    (hi : i < (convert_train_data isReg X y w).1.length) :
    ((convert_train_data isReg X y w).1.getD i
        (TrainRecord.tuple2 [] (PyNum.int 0))).target
      = (if isReg then PyNum.float ((X.zip y).getD i ([], PyNum.int 0)).2.toFloat
         else PyNum.int ((X.zip y).getD i ([], PyNum.int 0)).2.toInt) := by
  simp only [convert_train_data] at hi ⊢
  have hz : i < (X.zip y).length := by simpa using hi
  rw [List.getD_eq_getElem _ _ hi, List.getElem_map, List.getD_eq_getElem _ _ hz]
  cases w <;> rfl

/-- Witness for C8 at a single-row regression input. -/
theorem C8_target_dispatch_witness :
    ((convert_train_data true [[1]] [PyNum.int 3] none).1.getD 0
        (TrainRecord.tuple2 [] (PyNum.int 0))).target
      = (if true then
          PyNum.float (([[(1 : ℚ)]].zip [PyNum.int 3]).getD 0 ([], PyNum.int 0)).2.toFloat
         else
          PyNum.int (([[(1 : ℚ)]].zip [PyNum.int 3]).getD 0 ([], PyNum.int 0)).2.toInt) :=
  C8_target_dispatch true [[1]] [PyNum.int 3] none 0 (by decide)

/-- Claim C9.  On a trained facade, `predict` returns exactly one point
estimate per input row, the `i`-th being the engine's expected value for
row `i`; with `return_std=True` it additionally returns one uncertainty
per row, in row order. -/
theorem C9_predict_shapes (eng : Engine) (f : Facade) (X : List (List ℚ))
    (m : ModelHandle) (u : Nat → ℚ) (hm : f.model_ = some m)
    (hu : (eng.transform m X).uncertainty = some (UPayload.seq u)) :
    (∃ ys, (predict eng f X false).2 = Except.ok (PredictOutput.single ys) ∧
      ys.length = X.length ∧
      ∀ i, i < X.length → ys.getD i 0 = (eng.transform m X).expected i) ∧
    (∃ ys stds,
      (predict eng f X true).2 = Except.ok (PredictOutput.withStd ys stds) ∧
      ys.length = X.length ∧ stds.length = X.length ∧
      (∀ i, i < X.length → ys.getD i 0 = (eng.transform m X).expected i) ∧
      (∀ i, i < X.length → stds.getD i 0 = u i)) := by
  constructor
  · refine ⟨(List.range X.length).map (eng.transform m X).expected, ?_, by simp, ?_⟩
    · simp [predict, convert_run_data, hm]
    · intro i hi
      exact getD_range_map _ _ _ hi
  · refine ⟨(List.range X.length).map (eng.transform m X).expected,
      (List.range X.length).map u, ?_, by simp, by simp, ?_, ?_⟩
    · simp [predict, convert_run_data, hm, hu]
    · intro i hi
      exact getD_range_map _ _ _ hi
    · intro i hi
      exact getD_range_map _ _ _ hi

/-- Witness for C9 on a two-row input against an engine with per-row
uncertainties. -/
theorem C9_predict_shapes_witness :
    ∃ ys stds,
      (predict seqEngine trainedReg [[1], [2]] true).2
        = Except.ok (PredictOutput.withStd ys stds) ∧
      ys.length = [[(1 : ℚ)], [2]].length ∧
      stds.length = [[(1 : ℚ)], [2]].length ∧
      (∀ i, i < [[(1 : ℚ)], [2]].length →
        ys.getD i 0 = (seqEngine.transform 0 [[1], [2]]).expected i) ∧
      (∀ i, i < [[(1 : ℚ)], [2]].length →
        stds.getD i 0 = (fun _ => (1 : ℚ)) i) :=
  (C9_predict_shapes seqEngine trainedReg [[1], [2]] 0 (fun _ => 1) rfl rfl).2

/-- Helper: looking up a class index `j < K` in a map all of whose keys
lie outside `0..K-1` finds nothing. -/
lemma lookup_none_of_out (K j : Nat) (hj : j < K) :
    ∀ row : List (Int × ℚ),
      (row.all fun p => decide (p.1 < 0 ∨ (K : Int) ≤ p.1)) = true →
      row.lookup ((j : Int)) = none := by
  intro row
  induction row with
  | nil => intro _; rfl
  | cons p row ih =>
      intro h
      rw [List.all_cons, Bool.and_eq_true] at h
      have hk : p.1 < 0 ∨ (K : Int) ≤ p.1 := of_decide_eq_true h.1
      have hne : (((j : Int)) == p.1) = false := by
        refine beq_eq_false_iff_ne.mpr ?_
        intro he
        rcases hk with hk | hk <;> omega
      rw [List.lookup, hne]
      exact ih h.2

/-- Helper: densifying a map whose keys all lie outside `0..K-1` yields
the all-zero row. -/
lemma densifyRow_out (K : Nat) (row : List (Int × ℚ))
    (h : (row.all fun p => decide (p.1 < 0 ∨ (K : Int) ≤ p.1)) = true) :
    densifyRow K row = List.replicate K 0 := by
  unfold densifyRow
  refine List.eq_replicate_iff.mpr
    ⟨by simp only [List.length_map, List.length_range], ?_⟩
  intro b hb
  obtain ⟨j, hj, rfl⟩ := List.mem_map.mp hb
  rw [lookup_none_of_out K j (List.mem_range.mp hj) row h]
  rfl

/-- Claim C10.  `predict_proba` reads only the class indices `0..K-1` from
each engine probability map: when a model was trained on labels outside
that range (e.g. `{5, 7}`), every returned entry is `0.0`, the rows are
all-zero, and a row's sum is `0`, not `1`. -/
theorem C10_out_of_range_labels (eng : Engine) (f : Facade)
    (X : List (List ℚ)) (m : ModelHandle) (K : Nat)
    (ms : List (List (Int × ℚ)))
    (hm : f.model_ = some m) (hK : f.n_classes_ = some K)
    (hu : (eng.transform m X).uncertainty = some (UPayload.maps ms))
    (hlen : ms.length = X.length)
    (hout : (ms.all fun row =>
      row.all fun p => decide (p.1 < 0 ∨ (K : Int) ≤ p.1)) = true) :
    (predict_proba eng f X).2
      = Except.ok (List.replicate X.length (List.replicate K 0)) ∧
    (List.replicate K (0 : ℚ)).sum = 0 ∧ (0 : ℚ) ≠ 1 := by
  refine ⟨?_, by simp, by norm_num⟩
  rw [predict_proba_ok eng f X m K ms hm hK hu hlen]
  congr 1
  refine List.eq_replicate_iff.mpr ⟨by simp [hlen], ?_⟩
  intro b hb
  obtain ⟨row, hrow, rfl⟩ := List.mem_map.mp hb
  exact densifyRow_out K row (List.all_eq_true.mp hout row hrow)

/-- Witness for C10: a classifier actually fitted on labels `{5, 7}`
returns the all-zero probability row. -/
theorem C10_out_of_range_labels_witness :
    (predict_proba labelEngine clf57 [[1]]).2
      = Except.ok (List.replicate 1 (List.replicate 2 0)) :=
  (C10_out_of_range_labels labelEngine clf57 [[1]] 0 2 [[(5, 1), (7, 1)]]
    rfl (by decide) rfl rfl (by decide)).1

end Lolopy
